import Mathlib

/-!
Shallow embedding of the native QEMU process bridge
(`android/app/src/main/jni/qemu_jni.c`) and proofs about it.

Modelling conventions:
* `jint` and `jlong` arguments are embedded as `Int`; where the C code
  performs an unsigned 64-bit conversion or arithmetic, the reduction
  modulo `2 ^ 64` is written explicitly.
* JNI string acquisition (`GetStringUTFChars`), which may fail, is
  embedded as `Option String` inputs.
* Operating-system effects (`fork`, `kill`, `waitpid`, `fopen`) are
  embedded as explicit oracle parameters describing the OS outcome, and
  the observable effects of an operation (signals sent, waits performed,
  bytes written) are returned in explicit result structures.
* The C function `Java_..._nativeStart` declares `jlong handle_id` after
  the `goto cleanup` that handles string-acquisition failure; on that
  path `return handle_id` reads an uninitialized stack variable.  The
  embedding makes that indeterminate value an explicit parameter
  `handle_id_uninit`.
-/

namespace QemuJni

set_option maxRecDepth 8192

/-- One supervised QEMU process record (C struct `QemuHandle`). -/
structure QemuHandle where
  pid : Int
  running : Bool
  data_dir : String
  pid_file : String
  log_file : String
deriving DecidableEq, Repr

/-- The record produced by `calloc(1, sizeof(QemuHandle))`: all fields zero. -/
def zeroHandle : QemuHandle := ⟨0, false, "", "", ""⟩

/-- The global table `static QemuHandle* handles[MAX_HANDLES]` with
`MAX_HANDLES = 4`; each slot is either `NULL` (`none`) or an owned record. -/
structure HandleTable where
  s0 : Option QemuHandle
  s1 : Option QemuHandle
  s2 : Option QemuHandle
  s3 : Option QemuHandle
deriving DecidableEq, Repr

/-- The zero-initialized static table: all slots `NULL`. -/
def emptyTable : HandleTable := ⟨none, none, none, none⟩

/-- C `get_handle`: bounds check `0 <= handle_id < MAX_HANDLES`, then the
indexed slot (the four-way case split unrolls `handles[handle_id]`). -/
def get_handle (t : HandleTable) (handle_id : Int) : Option QemuHandle :=
  if handle_id = 0 then t.s0
  else if handle_id = 1 then t.s1
  else if handle_id = 2 then t.s2
  else if handle_id = 3 then t.s3
  else none

/-- C `allocate_handle`: scan slots `0..3` in order, put a zeroed record in
the first `NULL` slot and return its index; `-1` if all are occupied.
(The C loop is unrolled; `calloc` is modelled as always succeeding.) -/
def allocate_handle (t : HandleTable) : Int × HandleTable :=
  if t.s0 = none then (0, { t with s0 := some zeroHandle })
  else if t.s1 = none then (1, { t with s1 := some zeroHandle })
  else if t.s2 = none then (2, { t with s2 := some zeroHandle })
  else if t.s3 = none then (3, { t with s3 := some zeroHandle })
  else (-1, t)

/-- C `free_handle`: in-range slot is freed and set back to `NULL`. -/
def free_handle (t : HandleTable) (handle_id : Int) : HandleTable :=
  if handle_id = 0 then { t with s0 := none }
  else if handle_id = 1 then { t with s1 := none }
  else if handle_id = 2 then { t with s2 := none }
  else if handle_id = 3 then { t with s3 := none }
  else t

/-- Update the record stored in an in-range, occupied slot (mutation through
the `QemuHandle*` pointer in C). -/
def updSlot (t : HandleTable) (handle_id : Int) (f : QemuHandle → QemuHandle) :
    HandleTable :=
  if handle_id = 0 then { t with s0 := t.s0.map f }
  else if handle_id = 1 then { t with s1 := t.s1.map f }
  else if handle_id = 2 then { t with s2 := t.s2.map f }
  else if handle_id = 3 then { t with s3 := t.s3.map f }
  else t

/-- `handle->running = 0` through the pointer resolved from `handle_id`. -/
def markStopped (t : HandleTable) (handle_id : Int) : HandleTable :=
  updSlot t handle_id fun h => { h with running := false }

/-- `handle->pid = pid; handle->running = 1` in the parent after `fork`. -/
def setStarted (t : HandleTable) (handle_id : Int) (pid : Int) : HandleTable :=
  updSlot t handle_id fun h => { h with pid := pid, running := true }

/-! ### nativeCreateDisk -/

/-- C line 133: `uint64_t size_bytes = (uint64_t)size_mb * 1024 * 1024;`
The `jint` argument is first converted to `uint64_t` (reduction of the
sign-extended value modulo `2 ^ 64`), then multiplied in 64-bit unsigned
arithmetic. -/
def size_bytes (size_mb : Int) : Nat :=
  ((size_mb % (2 ^ 64 : Int)).toNat * 1024 * 1024) % 2 ^ 64

/-- A store into the 512-byte buffer `unsigned char header[512]`, viewed as
a function from byte index to byte value. -/
def store (f : Nat → Nat) (i v : Nat) : Nat → Nat :=
  fun j => if j = i then v else f j

/-- The header buffer after all stores of `nativeCreateDisk` (lines 120-142):
zero-filled buffer, magic bytes 0-3, version bytes 4-7, the eight big-endian
size bytes 24-31 (`header[24+i] = (size_bytes >> (56 - i*8)) & 0xFF` for
`i = 0..7`, loop unrolled), and cluster-bits bytes 20-23. -/
def headerFun (size_mb : Int) : Nat → Nat :=
  store (store (store (store
  (store (store (store (store
  (store (store (store (store
  (store (store (store (store
  (store (store (store (store
    (fun _ => 0)
    0 0x51) 1 0x46) 2 0x49) 3 0xFB)
    4 0) 5 0) 6 0) 7 3)
    24 (size_bytes size_mb >>> 56 &&& 0xFF))
    25 (size_bytes size_mb >>> 48 &&& 0xFF))
    26 (size_bytes size_mb >>> 40 &&& 0xFF))
    27 (size_bytes size_mb >>> 32 &&& 0xFF))
    28 (size_bytes size_mb >>> 24 &&& 0xFF))
    29 (size_bytes size_mb >>> 16 &&& 0xFF))
    30 (size_bytes size_mb >>> 8 &&& 0xFF))
    31 (size_bytes size_mb >>> 0 &&& 0xFF))
    20 0) 21 0) 22 0) 23 16

/-- The 512 bytes passed to `fwrite(header, 1, sizeof(header), fp)`. -/
def mkHeader (size_mb : Int) : List Nat :=
  (List.range 512).map (headerFun size_mb)

/-- C `nativeCreateDisk`: fails if the path string cannot be obtained or the
file cannot be opened; otherwise writes the 512-byte header and succeeds.
Result: (JNI boolean, bytes written to the file, if any). -/
def nativeCreateDisk (path : Option String) (fopen_ok : Bool) (size_mb : Int) :
    Bool × Option (List Nat) :=
  match path with
  | none => (false, none)
  | some _ => if fopen_ok then (true, some (mkHeader size_mb)) else (false, none)

/-- The eight base-256 digits of `n`, most significant first: the 8-byte
big-endian encoding described by the spec. -/
def beBytes8 (n : Nat) : List Nat :=
  [n / 256 ^ 7 % 256, n / 256 ^ 6 % 256, n / 256 ^ 5 % 256, n / 256 ^ 4 % 256,
   n / 256 ^ 3 % 256, n / 256 ^ 2 % 256, n / 256 ^ 1 % 256, n % 256]

/-! ### nativeStart (parent side) and the child invocation -/

/-- C `nativeStart`, parent side.  `fork_res = none` models `fork()` failing,
`fork_res = some pid` a successful `fork` returning the child pid in the
parent.  `handle_id_uninit` is the indeterminate value of the uninitialized
local `handle_id` that `return handle_id` reads when the early
`goto cleanup` (string-acquisition failure, line 173) jumps over the
initialization at line 180.  Result: (returned `jlong`, table after). -/
def nativeStart (t : HandleTable)
    (qemu_binary iso_path disk_path ports : Option String)
    (ram_mb cpu_cores : Int) (fork_res : Option Int) (handle_id_uninit : Int) :
    Int × HandleTable :=
  if qemu_binary.isNone || iso_path.isNone || disk_path.isNone || ports.isNone then
    (handle_id_uninit, t)
  else
    match allocate_handle t with
    | (handle_id, t1) =>
      if handle_id < 0 then (handle_id, t1)
      else
        match fork_res with
        | none => (-1, free_handle t1 handle_id)
        | some pid => (handle_id, setStarted t1 handle_id pid)

/-- `snprintf(buf, bufsize, ...)`: the formatted string, truncated to
`bufsize - 1` characters if it does not fit. -/
def snTrunc (bufsize : Nat) (s : String) : String :=
  if s.length < bufsize then s else ⟨s.data.take (bufsize - 1)⟩

/-- `char ram_arg[32]; snprintf(ram_arg, 32, "%dM", ram_mb);` -/
def ramArg (ram_mb : Int) : String := snTrunc 32 (toString ram_mb ++ "M")

/-- `char smp_arg[32]; snprintf(smp_arg, 32, "%d", cpu_cores);` -/
def smpArg (cpu_cores : Int) : String := snTrunc 32 (toString cpu_cores)

/-- `char netdev_arg[512]; snprintf(netdev_arg, 512, "user,id=net0,%s", port_str);` -/
def netdevArg (ports : String) : String := snTrunc 512 ("user,id=net0," ++ ports)

/-- The argument vector of the `execlp` call (lines 211-223), `argv[0]`
included.  The drive argument is the literal string
`"file=%s,format=qcow2,if=virtio"`; the caller-supplied `disk_path` is not
used by the child. -/
def childArgv (binary iso disk_path ports : String) (ram_mb cpu_cores : Int) :
    List String :=
  [binary,
   "-machine", "q35",
   "-cpu", "max",
   "-smp", smpArg cpu_cores,
   "-m", ramArg ram_mb,
   "-cdrom", iso,
   "-drive", "file=%s,format=qcow2,if=virtio",
   "-boot", "d",
   "-netdev", netdevArg ports,
   "-device", "virtio-net-pci,netdev=net0",
   "-display", "none",
   "-nographic"]

/-- What the forked child process does: either its image is replaced by the
emulator invocation, or `execlp` fails and the child runs `_exit(1)`. -/
inductive ChildOutcome where
  | execed (argv : List String)
  | exited (status : Nat)
deriving DecidableEq, Repr

/-- Child side of `nativeStart` (lines 198-228): format the arguments and
attempt the image replacement; on failure exit immediately with status 1. -/
def childRun (exec_ok : Bool) (binary iso disk_path ports : String)
    (ram_mb cpu_cores : Int) : ChildOutcome :=
  if exec_ok then .execed (childArgv binary iso disk_path ports ram_mb cpu_cores)
  else .exited 1

/-! ### nativeStop -/

/-- Attempt count of the graceful wait loop (`for (int i = 0; i < 50; i++)`). -/
def STOP_MAX_ATTEMPTS : Nat := 50

/-- `usleep(100000)` between polls: 100 milliseconds in microseconds. -/
def STOP_POLL_USEC : Nat := 100000

/-- OS oracle for `nativeStop`: whether `kill(pid, SIGTERM)` returns 0, and
for each poll attempt `i` whether `waitpid(pid, &status, WNOHANG)` returns
the pid (the process is observed to have exited) at that attempt. -/
structure StopOS where
  term_ok : Bool
  poll : Nat → Bool

/-- The graceful polling loop: attempts `i, i+1, ...` while fuel lasts,
returning the first attempt index at which the exit is observed. -/
def gracefulWait (poll : Nat → Bool) : Nat → Nat → Option Nat
  | _, 0 => none
  | i, fuel + 1 => if poll i then some i else gracefulWait poll (i + 1) fuel

/-- Observable outcome of `nativeStop`: the JNI boolean, the table after,
whether `kill(pid, SIGTERM)` was called, whether `kill(pid, SIGKILL)` was
called, whether the final blocking `waitpid(pid, NULL, 0)` was performed,
and how many non-blocking polls ran. -/
structure StopResult where
  ret : Bool
  table : HandleTable
  sent_term : Bool
  sent_kill : Bool
  block_wait : Bool
  polls : Nat
deriving DecidableEq, Repr

/-- C `nativeStop` (lines 247-288). -/
def nativeStop (t : HandleTable) (handle_id : Int) (os : StopOS) : StopResult :=
  match get_handle t handle_id with
  | none => ⟨false, t, false, false, false, 0⟩
  | some h =>
    if h.running = false then ⟨true, t, false, false, false, 0⟩
    else
      if os.term_ok then
        match gracefulWait os.poll 0 STOP_MAX_ATTEMPTS with
        | some i => ⟨true, markStopped t handle_id, true, false, false, i + 1⟩
        | none => ⟨true, markStopped t handle_id, true, true, true, STOP_MAX_ATTEMPTS⟩
      else ⟨true, markStopped t handle_id, true, true, true, 0⟩

/-! ### nativeGetStatus -/

/-- Outcome of the single `waitpid(pid, &status, WNOHANG)` in
`nativeGetStatus`: returned 0 (still running), returned the pid (exited),
or returned anything else (error). -/
inductive WaitPidResult where
  | stillRunning
  | exited
  | err
deriving DecidableEq, Repr

/-- C `nativeGetStatus` (lines 294-324).
Result: (returned status code, table after). -/
def nativeGetStatus (t : HandleTable) (handle_id : Int) (w : WaitPidResult) :
    Int × HandleTable :=
  match get_handle t handle_id with
  | none => (-1, t)
  | some h =>
    if h.running = false then (0, t)
    else
      match w with
      | .stillRunning => (1, t)
      | .exited => (0, markStopped t handle_id)
      | .err => (-1, t)

/-! ### nativeCleanup -/

/-- Observable outcome of `nativeCleanup`: the table after, whether
`kill(pid, SIGKILL)` was sent and whether the blocking reap ran. -/
structure CleanupResult where
  table : HandleTable
  sent_kill : Bool
  block_wait : Bool
deriving DecidableEq, Repr

/-- C `nativeCleanup` (lines 329-348). -/
def nativeCleanup (t : HandleTable) (handle_id : Int) : CleanupResult :=
  match get_handle t handle_id with
  | none => ⟨t, false, false⟩
  | some h =>
    if h.running then ⟨free_handle t handle_id, true, true⟩
    else ⟨free_handle t handle_id, false, false⟩

/-! ### Helper lemmas about the disk header -/

lemma and255 (x : Nat) : x &&& 255 = x % 256 := by
  have h := Nat.and_pow_two_sub_one_eq_mod x 8
  norm_num at h
  exact h

lemma mkHeader_getD (s : Int) (i : Nat) (h : i < 512) :
    (mkHeader s).getD i 0 = headerFun s i := by
  unfold mkHeader
  rw [List.getD_eq_getElem?_getD, List.getElem?_map, List.getElem?_range h]
  rfl

lemma mkHeader_length (s : Int) : (mkHeader s).length = 512 := by
  simp [mkHeader]

lemma mkHeader_magic (s : Int) :
    [(mkHeader s).getD 0 0, (mkHeader s).getD 1 0,
     (mkHeader s).getD 2 0, (mkHeader s).getD 3 0] = [0x51, 0x46, 0x49, 0xFB] := by
  rw [mkHeader_getD s 0 (by norm_num), mkHeader_getD s 1 (by norm_num),
      mkHeader_getD s 2 (by norm_num), mkHeader_getD s 3 (by norm_num)]
  norm_num [headerFun, store]

lemma mkHeader_version (s : Int) :
    [(mkHeader s).getD 4 0, (mkHeader s).getD 5 0,
     (mkHeader s).getD 6 0, (mkHeader s).getD 7 0] = [0, 0, 0, 3] := by
  rw [mkHeader_getD s 4 (by norm_num), mkHeader_getD s 5 (by norm_num),
      mkHeader_getD s 6 (by norm_num), mkHeader_getD s 7 (by norm_num)]
  norm_num [headerFun, store]

lemma mkHeader_cluster_bits (s : Int) :
    [(mkHeader s).getD 20 0, (mkHeader s).getD 21 0,
     (mkHeader s).getD 22 0, (mkHeader s).getD 23 0] = [0, 0, 0, 16] := by
  rw [mkHeader_getD s 20 (by norm_num), mkHeader_getD s 21 (by norm_num),
      mkHeader_getD s 22 (by norm_num), mkHeader_getD s 23 (by norm_num)]
  norm_num [headerFun, store]

lemma mkHeader_size_slice (s : Int) :
    [(mkHeader s).getD 24 0, (mkHeader s).getD 25 0,
     (mkHeader s).getD 26 0, (mkHeader s).getD 27 0,
     (mkHeader s).getD 28 0, (mkHeader s).getD 29 0,
     (mkHeader s).getD 30 0, (mkHeader s).getD 31 0]
      = beBytes8 (size_bytes s) := by
  rw [mkHeader_getD s 24 (by norm_num), mkHeader_getD s 25 (by norm_num),
      mkHeader_getD s 26 (by norm_num), mkHeader_getD s 27 (by norm_num),
      mkHeader_getD s 28 (by norm_num), mkHeader_getD s 29 (by norm_num),
      mkHeader_getD s 30 (by norm_num), mkHeader_getD s 31 (by norm_num)]
  norm_num [headerFun, store, beBytes8, and255, Nat.shiftRight_eq_div_pow]

lemma mkHeader_rest_zero (s : Int) (i : Nat)
    (h : (8 ≤ i ∧ i < 20) ∨ (32 ≤ i ∧ i < 512)) :
    (mkHeader s).getD i 0 = 0 := by
  rw [mkHeader_getD s i (by omega)]
  simp only [headerFun, store]
  repeat rw [if_neg (by omega)]
  try rfl

/-! ### Spec-side descriptions and concrete fixtures -/

/-- The slots of the table as a list, in index order. -/
def slotsList (t : HandleTable) : List (Option QemuHandle) :=
  [t.s0, t.s1, t.s2, t.s3]

/-- Index of the first empty slot, scanning in index order (the allocation
rule as the spec words it). -/
def firstEmptySlot (t : HandleTable) : Option Nat :=
  (slotsList t).findIdx? fun s => s.isNone

/-- Replace the slot at a given index. -/
def setSlotNat (t : HandleTable) (i : Nat) (v : Option QemuHandle) : HandleTable :=
  if i = 0 then { t with s0 := v }
  else if i = 1 then { t with s1 := v }
  else if i = 2 then { t with s2 := v }
  else if i = 3 then { t with s3 := v }
  else t

/-- A table whose slot 0 supervises a running process with pid 77. -/
def demoTable : HandleTable := ⟨some ⟨77, true, "", "", ""⟩, none, none, none⟩

/-- The record stored in slot 0 of `demoTable`. -/
def demoHandle : QemuHandle := ⟨77, true, "", "", ""⟩

/-- A stop oracle: SIGTERM delivered, exit observed from poll attempt 3 on. -/
def demoStopOS : StopOS := ⟨true, fun i => decide (3 ≤ i)⟩

/-- A 499-character port-forwarding fragment: together with the 13-character
literal `user,id=net0,` it overflows the 512-byte `netdev_arg` buffer, so
`snprintf` truncates it. -/
def longPortFragment : String := ⟨List.replicate 499 'p'⟩

/-! ### Helper lemmas about the polling loop and the handle table -/

lemma gracefulWait_some_spec (poll : Nat → Bool) :
    ∀ fuel i j, gracefulWait poll i fuel = some j →
      i ≤ j ∧ j < i + fuel ∧ poll j = true ∧
        ∀ k, i ≤ k → k < j → poll k = false := by
  intro fuel
  induction fuel with
  | zero => intro i j h; simp [gracefulWait] at h
  | succ n ih =>
    intro i j h
    rw [gracefulWait] at h
    by_cases hp : poll i
    · rw [if_pos hp] at h
      cases h
      exact ⟨le_refl _, by omega, hp,
        fun k hk1 hk2 => absurd (Nat.lt_of_le_of_lt hk1 hk2) (Nat.lt_irrefl i)⟩
    · rw [if_neg hp] at h
      obtain ⟨ha, hb, hc, hd⟩ := ih (i + 1) j h
      refine ⟨by omega, by omega, hc, fun k hk1 hk2 => ?_⟩
      rcases Nat.lt_or_ge k (i + 1) with hki | hki
      · have hik : k = i := by omega
        rw [hik]
        simpa using hp
      · exact hd k hki hk2

lemma gracefulWait_none_spec (poll : Nat → Bool) :
    ∀ fuel i, gracefulWait poll i fuel = none →
      ∀ k, i ≤ k → k < i + fuel → poll k = false := by
  intro fuel
  induction fuel with
  | zero => intro i _ k hk1 hk2; omega
  | succ n ih =>
    intro i h k hk1 hk2
    rw [gracefulWait] at h
    by_cases hp : poll i
    · rw [if_pos hp] at h; cases h
    · rw [if_neg hp] at h
      rcases Nat.lt_or_ge k (i + 1) with hki | hki
      · have hik : k = i := by omega
        rw [hik]
        simpa using hp
      · exact ih (i + 1) h k hki (by omega)

lemma get_handle_markStopped (t : HandleTable) (handle_id : Int) :
    get_handle (markStopped t handle_id) handle_id
      = (get_handle t handle_id).map fun h => { h with running := false } := by
  unfold markStopped updSlot get_handle
  split_ifs <;> simp

/-- C2: for every requested size in mebibytes (a nonnegative `jint`),
Create Disk Image succeeds and writes a file of exactly 512 bytes in which
bytes 0-3 are `0x51 0x46 0x49 0xFB`, bytes 4-7 are `0 0 0 3`, bytes 20-23
are `0 0 0 16`, bytes 24-31 are the 8-byte big-endian encoding of
`size_mb * 1048576`, and every other byte is zero. -/
theorem c2_create_disk_header_layout (p : String) (size_mb : Int)
    (h1 : 0 ≤ size_mb) (h2 : size_mb < 2 ^ 31) :
    nativeCreateDisk (some p) true size_mb = (true, some (mkHeader size_mb)) ∧
    (mkHeader size_mb).length = 512 ∧
    [(mkHeader size_mb).getD 0 0, (mkHeader size_mb).getD 1 0,
     (mkHeader size_mb).getD 2 0, (mkHeader size_mb).getD 3 0]
      = [0x51, 0x46, 0x49, 0xFB] ∧
    [(mkHeader size_mb).getD 4 0, (mkHeader size_mb).getD 5 0,
     (mkHeader size_mb).getD 6 0, (mkHeader size_mb).getD 7 0] = [0, 0, 0, 3] ∧
    [(mkHeader size_mb).getD 20 0, (mkHeader size_mb).getD 21 0,
     (mkHeader size_mb).getD 22 0, (mkHeader size_mb).getD 23 0] = [0, 0, 0, 16] ∧
    [(mkHeader size_mb).getD 24 0, (mkHeader size_mb).getD 25 0,
     (mkHeader size_mb).getD 26 0, (mkHeader size_mb).getD 27 0,
     (mkHeader size_mb).getD 28 0, (mkHeader size_mb).getD 29 0,
     (mkHeader size_mb).getD 30 0, (mkHeader size_mb).getD 31 0]
      = beBytes8 ((size_mb * 1048576).toNat) ∧
    ∀ i : Nat, (8 ≤ i ∧ i < 20) ∨ (32 ≤ i ∧ i < 512) →
      (mkHeader size_mb).getD i 0 = 0 := by
  have hsb : size_bytes size_mb = (size_mb * 1048576).toNat := by
    unfold size_bytes
    omega
  refine ⟨rfl, mkHeader_length _, mkHeader_magic _, mkHeader_version _,
    mkHeader_cluster_bits _, ?_, fun i hi => mkHeader_rest_zero _ i hi⟩
  rw [← hsb]
  exact mkHeader_size_slice _

/-- C2 witness: size 1 MiB gives size bytes `00 00 00 00 00 10 00 00`. -/
theorem c2_create_disk_header_layout_witness :
    (0 : Int) ≤ 1 ∧ (1 : Int) < 2 ^ 31 ∧
    nativeCreateDisk (some "disk.qcow2") true 1 = (true, some (mkHeader 1)) ∧
    [(mkHeader 1).getD 24 0, (mkHeader 1).getD 25 0,
     (mkHeader 1).getD 26 0, (mkHeader 1).getD 27 0,
     (mkHeader 1).getD 28 0, (mkHeader 1).getD 29 0,
     (mkHeader 1).getD 30 0, (mkHeader 1).getD 31 0]
      = [0, 0, 0, 0, 0, 0x10, 0, 0] := by
  have h := c2_create_disk_header_layout "disk.qcow2" 1 (by norm_num) (by norm_num)
  refine ⟨by norm_num, by norm_num, h.1, ?_⟩
  rw [h.2.2.2.2.2.1]
  norm_num [beBytes8]
  decide

/-- C10: for every negative requested size (as a `jint`), Create Disk Image
still succeeds, and bytes 24-31 encode the sign-extended value times
1048576 reduced modulo `2 ^ 64`, while the mathematical product is negative
(so the header does not encode the mathematical product). -/
theorem c10_negative_size_wraps_mod_two_pow_64 (p : String) (size_mb : Int)
    (h1 : -2 ^ 31 ≤ size_mb) (h2 : size_mb < 0) :
    nativeCreateDisk (some p) true size_mb = (true, some (mkHeader size_mb)) ∧
    [(mkHeader size_mb).getD 24 0, (mkHeader size_mb).getD 25 0,
     (mkHeader size_mb).getD 26 0, (mkHeader size_mb).getD 27 0,
     (mkHeader size_mb).getD 28 0, (mkHeader size_mb).getD 29 0,
     (mkHeader size_mb).getD 30 0, (mkHeader size_mb).getD 31 0]
      = beBytes8 ((size_mb % 2 ^ 64 * 1048576 % 2 ^ 64).toNat) ∧
    size_mb * 1048576 < 0 := by
  have hsb : size_bytes size_mb = (size_mb % 2 ^ 64 * 1048576 % 2 ^ 64).toNat := by
    unfold size_bytes
    omega
  refine ⟨rfl, ?_, by omega⟩
  rw [← hsb]
  exact mkHeader_size_slice _

/-- C10 witness: size -1 gives size bytes `FF FF FF FF FF F0 00 00`. -/
theorem c10_negative_size_wraps_mod_two_pow_64_witness :
    (-2 ^ 31 : Int) ≤ -1 ∧ (-1 : Int) < 0 ∧
    nativeCreateDisk (some "disk.qcow2") true (-1) = (true, some (mkHeader (-1))) ∧
    [(mkHeader (-1)).getD 24 0, (mkHeader (-1)).getD 25 0,
     (mkHeader (-1)).getD 26 0, (mkHeader (-1)).getD 27 0,
     (mkHeader (-1)).getD 28 0, (mkHeader (-1)).getD 29 0,
     (mkHeader (-1)).getD 30 0, (mkHeader (-1)).getD 31 0]
      = [0xFF, 0xFF, 0xFF, 0xFF, 0xFF, 0xF0, 0, 0] := by
  have h := c10_negative_size_wraps_mod_two_pow_64 "disk.qcow2" (-1)
    (by norm_num) (by norm_num)
  refine ⟨by norm_num, by norm_num, h.1, ?_⟩
  rw [h.2.1]
  norm_num [beBytes8]
  decide

/-- C1: when a string input of Start Process cannot be obtained, no
handle-table slot is allocated, but the operation returns the value of the
uninitialized local `handle_id` (here modelled as 7) rather than the
documented sentinel -1: the `goto cleanup` at line 173 jumps over the
initialization of `handle_id` at line 180, and `return handle_id` at line
241 reads an indeterminate value. -/
theorem c1_start_string_failure_returns_uninitialized :
    nativeStart emptyTable (some "qemu-system-x86_64") none (some "disk.qcow2")
        (some "hostfwd=tcp::2375-:2375") 2048 2 (some 33) 7 = (7, emptyTable) ∧
    (7 : Int) ≠ -1 :=
  ⟨rfl, by decide⟩

/-- C6: handle allocation returns the first empty slot in index order,
zero-initialized, and -1 when all four slots are occupied; consequently
4 sequential OS-successful Start Process calls from the empty table return
handle ids 0, 1, 2, 3 and a 5th returns -1. -/
theorem c6_allocation_first_empty_and_capacity :
    (∀ t : HandleTable,
      allocate_handle t =
        match firstEmptySlot t with
        | some i => ((i : Int), setSlotNat t i (some zeroHandle))
        | none => (-1, t)) ∧
    ((nativeStart emptyTable (some "q") (some "i") (some "d") (some "p")
        512 2 (some 11) 0).1 = 0 ∧
     (nativeStart (nativeStart emptyTable (some "q") (some "i") (some "d") (some "p")
        512 2 (some 11) 0).2 (some "q") (some "i") (some "d") (some "p")
        512 2 (some 12) 0).1 = 1 ∧
     (nativeStart (nativeStart (nativeStart emptyTable (some "q") (some "i") (some "d")
        (some "p") 512 2 (some 11) 0).2 (some "q") (some "i") (some "d") (some "p")
        512 2 (some 12) 0).2 (some "q") (some "i") (some "d") (some "p")
        512 2 (some 13) 0).1 = 2 ∧
     (nativeStart (nativeStart (nativeStart (nativeStart emptyTable (some "q") (some "i")
        (some "d") (some "p") 512 2 (some 11) 0).2 (some "q") (some "i") (some "d")
        (some "p") 512 2 (some 12) 0).2 (some "q") (some "i") (some "d") (some "p")
        512 2 (some 13) 0).2 (some "q") (some "i") (some "d") (some "p")
        512 2 (some 14) 0).1 = 3 ∧
     (nativeStart (nativeStart (nativeStart (nativeStart (nativeStart emptyTable
        (some "q") (some "i") (some "d") (some "p") 512 2 (some 11) 0).2
        (some "q") (some "i") (some "d") (some "p") 512 2 (some 12) 0).2
        (some "q") (some "i") (some "d") (some "p") 512 2 (some 13) 0).2
        (some "q") (some "i") (some "d") (some "p") 512 2 (some 14) 0).2
        (some "q") (some "i") (some "d") (some "p") 512 2 (some 15) 0).1 = -1) := by
  constructor
  · intro t
    rcases t with ⟨s0, s1, s2, s3⟩
    rcases s0 with _ | h0 <;> rcases s1 with _ | h1 <;> rcases s2 with _ | h2 <;>
      rcases s3 with _ | h3 <;> rfl
  · exact ⟨rfl, rfl, rfl, rfl, rfl⟩

/-- C9: if fork fails during Start Process (with all string inputs
obtained), the operation returns -1 and the table ends exactly as it was
before the call: the just-allocated slot is released again. -/
theorem c9_fork_failure_releases_slot (t : HandleTable) (b i d p : String)
    (ram_mb cpu_cores handle_id_uninit : Int) :
    nativeStart t (some b) (some i) (some d) (some p) ram_mb cpu_cores none
      handle_id_uninit = (-1, t) := by
  rcases t with ⟨s0, s1, s2, s3⟩
  rcases s0 with _ | h0 <;> rcases s1 with _ | h1 <;> rcases s2 with _ | h2 <;>
    rcases s3 with _ | h3 <;>
    simp [nativeStart, allocate_handle, free_handle]

/-- C3 counterexample: with a 499-character port-forwarding fragment the
combined netdev string has 512 characters, `snprintf` truncates it to 511,
and the child does not exec the claimed argv with the fragment passed
through verbatim. -/
theorem c3_truncation_counterexample :
    longPortFragment.length = 499 ∧
    ("user,id=net0," ++ longPortFragment).length = 512 ∧
    (netdevArg longPortFragment).length = 511 ∧
    childRun true "qemu-system-x86_64" "boot.iso" "disk.qcow2"
        longPortFragment 2048 2 ≠
      .execed ["qemu-system-x86_64",
        "-machine", "q35",
        "-cpu", "max",
        "-smp", "2",
        "-m", "2048M",
        "-cdrom", "boot.iso",
        "-drive", "file=%s,format=qcow2,if=virtio",
        "-boot", "d",
        "-netdev", "user,id=net0," ++ longPortFragment,
        "-device", "virtio-net-pci,netdev=net0",
        "-display", "none",
        "-nographic"] := by
  refine ⟨rfl, rfl, rfl, ?_⟩
  decide

/-- C3 (amended): on a successful Start Process the child execs the
emulator with the fixed, ordered argument vector, where the netdev
argument is `user,id=net0,` followed by the port fragment, the whole
truncated by `snprintf` to at most 511 characters (fragments up to 498
characters pass through verbatim); the drive argument is the literal
uninterpolated template (the result does not depend on the caller-supplied
disk path); and if the exec fails the child exits immediately with
status 1.  The hypotheses say the ram and cpu `snprintf` buffers fit,
which holds for every `jint` input. -/
theorem c3_child_exec_argv_amended (binary iso disk_path ports : String)
    (ram_mb cpu_cores : Int)
    (h1 : (toString ram_mb ++ "M").length < 32)
    (h2 : (toString cpu_cores).length < 32) :
    childRun true binary iso disk_path ports ram_mb cpu_cores =
      .execed [binary,
        "-machine", "q35",
        "-cpu", "max",
        "-smp", toString cpu_cores,
        "-m", toString ram_mb ++ "M",
        "-cdrom", iso,
        "-drive", "file=%s,format=qcow2,if=virtio",
        "-boot", "d",
        "-netdev", (if ("user,id=net0," ++ ports).length < 512
                    then "user,id=net0," ++ ports
                    else ⟨("user,id=net0," ++ ports).data.take 511⟩),
        "-device", "virtio-net-pci,netdev=net0",
        "-display", "none",
        "-nographic"] ∧
    (∀ other_disk : String,
      childRun true binary iso other_disk ports ram_mb cpu_cores
        = childRun true binary iso disk_path ports ram_mb cpu_cores) ∧
    childRun false binary iso disk_path ports ram_mb cpu_cores = .exited 1 := by
  refine ⟨?_, fun _ => rfl, rfl⟩
  have e1 : ramArg ram_mb = toString ram_mb ++ "M" := by
    unfold ramArg snTrunc
    rw [if_pos h1]
  have e2 : smpArg cpu_cores = toString cpu_cores := by
    unfold smpArg snTrunc
    rw [if_pos h2]
  have e3 : netdevArg ports =
      if ("user,id=net0," ++ ports).length < 512
      then "user,id=net0," ++ ports
      else ⟨("user,id=net0," ++ ports).data.take 511⟩ := rfl
  rw [childRun, if_pos rfl, childArgv, e1, e2, e3]

/-- C3 witness: concrete invocations with 2048 MiB and 2 cores, once with a
short fragment (passed through verbatim) and once with the 499-character
fragment (truncated to the first 498 characters). -/
theorem c3_child_exec_argv_amended_witness :
    (toString (2048 : Int) ++ "M").length < 32 ∧
    (toString (2 : Int)).length < 32 ∧
    childRun true "qemu-system-x86_64" "boot.iso" "disk.qcow2"
        "hostfwd=tcp::2375-:2375" 2048 2 =
      .execed ["qemu-system-x86_64",
        "-machine", "q35",
        "-cpu", "max",
        "-smp", "2",
        "-m", "2048M",
        "-cdrom", "boot.iso",
        "-drive", "file=%s,format=qcow2,if=virtio",
        "-boot", "d",
        "-netdev", "user,id=net0,hostfwd=tcp::2375-:2375",
        "-device", "virtio-net-pci,netdev=net0",
        "-display", "none",
        "-nographic"] ∧
    childRun false "qemu-system-x86_64" "boot.iso" "disk.qcow2"
        "hostfwd=tcp::2375-:2375" 2048 2 = .exited 1 ∧
    childRun true "qemu-system-x86_64" "boot.iso" "disk.qcow2"
        longPortFragment 2048 2 =
      .execed ["qemu-system-x86_64",
        "-machine", "q35",
        "-cpu", "max",
        "-smp", "2",
        "-m", "2048M",
        "-cdrom", "boot.iso",
        "-drive", "file=%s,format=qcow2,if=virtio",
        "-boot", "d",
        "-netdev", ⟨'u' :: 's' :: 'e' :: 'r' :: ',' :: 'i' :: 'd' :: '=' ::
                    'n' :: 'e' :: 't' :: '0' :: ',' :: List.replicate 498 'p'⟩,
        "-device", "virtio-net-pci,netdev=net0",
        "-display", "none",
        "-nographic"] := by
  have h1 := c3_child_exec_argv_amended "qemu-system-x86_64" "boot.iso" "disk.qcow2"
    "hostfwd=tcp::2375-:2375" 2048 2 (by decide) (by decide)
  have h2 := c3_child_exec_argv_amended "qemu-system-x86_64" "boot.iso" "disk.qcow2"
    longPortFragment 2048 2 (by decide) (by decide)
  refine ⟨by decide, by decide, ?_, h1.2.2, ?_⟩
  · rw [h1.1]
    rfl
  · rw [h2.1]
    decide

/-- C4: Stop Process on a valid, running handle always attempts the
graceful SIGTERM first; when it is delivered, the loop polls with a
non-blocking wait for at most 50 attempts of 100 ms each, and the first
observed exit (attempt `i`, everything before it still running) marks the
record not-running and returns success with no SIGKILL and no blocking
wait; only when the window elapses with no exit, or when the SIGTERM could
not be delivered, is SIGKILL sent, followed by a blocking wait, and the
record marked not-running. -/
theorem c4_stop_graceful_then_forced (t : HandleTable) (handle_id : Int)
    (h : QemuHandle) (os : StopOS)
    (hh : get_handle t handle_id = some h) (hr : h.running = true) :
    (nativeStop t handle_id os).sent_term = true ∧
    (os.term_ok = true →
      (∀ i, gracefulWait os.poll 0 STOP_MAX_ATTEMPTS = some i →
        i < 50 ∧ os.poll i = true ∧ (∀ j, j < i → os.poll j = false) ∧
        nativeStop t handle_id os
          = ⟨true, markStopped t handle_id, true, false, false, i + 1⟩) ∧
      (gracefulWait os.poll 0 STOP_MAX_ATTEMPTS = none →
        (∀ j, j < 50 → os.poll j = false) ∧
        nativeStop t handle_id os
          = ⟨true, markStopped t handle_id, true, true, true, 50⟩)) ∧
    (os.term_ok = false →
      nativeStop t handle_id os
        = ⟨true, markStopped t handle_id, true, true, true, 0⟩) ∧
    STOP_MAX_ATTEMPTS = 50 ∧ STOP_POLL_USEC = 100 * 1000 := by
  have hstop : nativeStop t handle_id os =
      if os.term_ok then
        match gracefulWait os.poll 0 STOP_MAX_ATTEMPTS with
        | some i => ⟨true, markStopped t handle_id, true, false, false, i + 1⟩
        | none => ⟨true, markStopped t handle_id, true, true, true, STOP_MAX_ATTEMPTS⟩
      else ⟨true, markStopped t handle_id, true, true, true, 0⟩ := by
    simp [nativeStop, hh, hr]
  refine ⟨?_, fun hos => ⟨fun i hi => ?_, fun hi => ?_⟩, fun hos => ?_, rfl, rfl⟩
  · rw [hstop]
    by_cases hos : os.term_ok
    · rcases hgw : gracefulWait os.poll 0 STOP_MAX_ATTEMPTS with _ | i <;>
        simp [hos, hgw]
    · simp [hos]
  · obtain ⟨hle, hlt, hpi, hbefore⟩ := gracefulWait_some_spec os.poll _ _ _ hi
    refine ⟨by simpa [STOP_MAX_ATTEMPTS] using hlt, hpi,
      fun j hj => hbefore j (Nat.zero_le j) hj, ?_⟩
    rw [hstop, if_pos hos, hi]
  · refine ⟨fun j hj => gracefulWait_none_spec os.poll _ _ hi j (Nat.zero_le j)
      (by simpa [STOP_MAX_ATTEMPTS] using hj), ?_⟩
    rw [hstop, if_pos hos, hi]
    rfl
  · rw [hstop, if_neg (by simp [hos])]

/-- C4 witness: pid 77 in slot 0, SIGTERM delivered, exit observed at poll
attempt 3: Stop returns success after 4 polls with no SIGKILL. -/
theorem c4_stop_graceful_then_forced_witness :
    get_handle demoTable 0 = some demoHandle ∧ demoHandle.running = true ∧
    gracefulWait demoStopOS.poll 0 STOP_MAX_ATTEMPTS = some 3 ∧
    nativeStop demoTable 0 demoStopOS
      = ⟨true, markStopped demoTable 0, true, false, false, 4⟩ := by
  have h := c4_stop_graceful_then_forced demoTable 0 demoHandle demoStopOS rfl rfl
  exact ⟨rfl, rfl, rfl, ((h.2.1 rfl).1 3 rfl).2.2.2⟩

/-- C5: Get Status returns -1 for an invalid handle, 0 when the record is
marked not-running, and otherwise performs one non-blocking wait: 1 if the
process has not exited; 0 with the record marked not-running if it has
exited, after which a further Get Status call returns 0 with no state
change regardless of what the operating system would answer; and -1 if the
wait itself errors (with no state change). -/
theorem c5_get_status_semantics :
    (∀ (t : HandleTable) (handle_id : Int) (w : WaitPidResult),
      get_handle t handle_id = none → nativeGetStatus t handle_id w = (-1, t)) ∧
    (∀ (t : HandleTable) (handle_id : Int) (h : QemuHandle) (w : WaitPidResult),
      get_handle t handle_id = some h → h.running = false →
      nativeGetStatus t handle_id w = (0, t)) ∧
    (∀ (t : HandleTable) (handle_id : Int) (h : QemuHandle),
      get_handle t handle_id = some h → h.running = true →
      nativeGetStatus t handle_id .stillRunning = (1, t) ∧
      nativeGetStatus t handle_id .err = (-1, t) ∧
      nativeGetStatus t handle_id .exited = (0, markStopped t handle_id) ∧
      ∀ w' : WaitPidResult,
        nativeGetStatus (markStopped t handle_id) handle_id w'
          = (0, markStopped t handle_id)) := by
  refine ⟨fun t handle_id w hg => by simp [nativeGetStatus, hg],
    fun t handle_id h w hg hr => by simp [nativeGetStatus, hg, hr],
    fun t handle_id h hg hr => ⟨by simp [nativeGetStatus, hg, hr],
      by simp [nativeGetStatus, hg, hr], by simp [nativeGetStatus, hg, hr],
      fun w' => ?_⟩⟩
  have hg2 : get_handle (markStopped t handle_id) handle_id
      = some { h with running := false } := by
    rw [get_handle_markStopped, hg]
    rfl
  simp [nativeGetStatus, hg2]

/-- C5 witness: pid 77 running in slot 0; the first query observes the exit
and returns 0, the next query returns 0 with no further state change. -/
theorem c5_get_status_semantics_witness :
    get_handle demoTable 0 = some demoHandle ∧ demoHandle.running = true ∧
    nativeGetStatus demoTable 0 .stillRunning = (1, demoTable) ∧
    nativeGetStatus demoTable 0 .exited = (0, markStopped demoTable 0) ∧
    nativeGetStatus (markStopped demoTable 0) 0 .stillRunning
      = (0, markStopped demoTable 0) := by
  have h := c5_get_status_semantics.2.2 demoTable 0 demoHandle rfl rfl
  exact ⟨rfl, rfl, h.1, h.2.2.1, h.2.2.2 .stillRunning⟩

/-- C7: Stop Process returns true on every path except an invalid handle
id; on a valid handle already marked not-running it returns true at once,
delivering no signal, performing no wait and changing no state. -/
theorem c7_stop_success_and_idempotence :
    (∀ (t : HandleTable) (handle_id : Int) (os : StopOS) (h : QemuHandle),
      get_handle t handle_id = some h → (nativeStop t handle_id os).ret = true) ∧
    (∀ (t : HandleTable) (handle_id : Int) (os : StopOS) (h : QemuHandle),
      get_handle t handle_id = some h → h.running = false →
      nativeStop t handle_id os = ⟨true, t, false, false, false, 0⟩) := by
  constructor
  · intro t handle_id os h hh
    simp only [nativeStop, hh]
    by_cases hr : h.running = false
    · simp [hr]
    · simp only [hr, if_false]
      by_cases hos : os.term_ok
      · rcases hgw : gracefulWait os.poll 0 STOP_MAX_ATTEMPTS with _ | i <;>
          simp [hos, hgw]
      · simp [hos]
  · intro t handle_id os h hh hr
    simp [nativeStop, hh, hr]

/-- C7 witness: stopping slot 0 of the already-stopped table returns true
again with no signal delivery and no state change. -/
theorem c7_stop_success_and_idempotence_witness :
    get_handle (markStopped demoTable 0) 0 = some { demoHandle with running := false } ∧
    nativeStop (markStopped demoTable 0) 0 demoStopOS
      = ⟨true, markStopped demoTable 0, false, false, false, 0⟩ := by
  have h := c7_stop_success_and_idempotence.2 (markStopped demoTable 0) 0 demoStopOS
    { demoHandle with running := false } rfl rfl
  exact ⟨rfl, h⟩

/-- C8: for a handle id outside [0, 4) or whose slot is empty, Get Status
returns -1, Stop Process returns false, and Cleanup is a no-op: no state
change, no signal, no wait. -/
theorem c8_invalid_handle_rejection (t : HandleTable) (handle_id : Int)
    (hinv : handle_id < 0 ∨ 4 ≤ handle_id ∨ get_handle t handle_id = none) :
    (∀ w : WaitPidResult, nativeGetStatus t handle_id w = (-1, t)) ∧
    (∀ os : StopOS, nativeStop t handle_id os = ⟨false, t, false, false, false, 0⟩) ∧
    nativeCleanup t handle_id = ⟨t, false, false⟩ := by
  have hg : get_handle t handle_id = none := by
    rcases hinv with h | h | h
    · unfold get_handle
      rw [if_neg (by omega), if_neg (by omega), if_neg (by omega), if_neg (by omega)]
    · unfold get_handle
      rw [if_neg (by omega), if_neg (by omega), if_neg (by omega), if_neg (by omega)]
    · exact h
  exact ⟨fun w => by simp [nativeGetStatus, hg],
    fun os => by simp [nativeStop, hg],
    by simp [nativeCleanup, hg]⟩

/-- C8 witness: handle id 17 is out of range, handle id 2 has an empty slot
in `demoTable`; both are rejected and Cleanup changes nothing. -/
theorem c8_invalid_handle_rejection_witness :
    (nativeGetStatus demoTable 17 .stillRunning = (-1, demoTable) ∧
     nativeStop demoTable 17 demoStopOS = ⟨false, demoTable, false, false, false, 0⟩ ∧
     nativeCleanup demoTable 17 = ⟨demoTable, false, false⟩) ∧
    (nativeGetStatus demoTable 2 .stillRunning = (-1, demoTable) ∧
     nativeStop demoTable 2 demoStopOS = ⟨false, demoTable, false, false, false, 0⟩ ∧
     nativeCleanup demoTable 2 = ⟨demoTable, false, false⟩) := by
  have h17 := c8_invalid_handle_rejection demoTable 17 (by norm_num)
  have h2 := c8_invalid_handle_rejection demoTable 2 (Or.inr (Or.inr rfl))
  exact ⟨⟨h17.1 .stillRunning, h17.2.1 demoStopOS, h17.2.2⟩,
    ⟨h2.1 .stillRunning, h2.2.1 demoStopOS, h2.2.2⟩⟩

end QemuJni
